import Mathlib

/-!
Verification development for the Music Player remote-control client
(`Music_Player_Client.py`).  The client is a one-shot synchronous RPC
wrapper: each operation builds a command/params envelope, opens a
fresh socket, pickles the request, reads the response until EOF,
unpickles it, and records a boolean connection-state flag.

The embedding below models:
  * Python values exchanged over the wire (`Value`), with Python
    truthiness and `dict.get` semantics;
  * the network as an oracle (`Env`) giving, for each successive call
    (indexed by how many requests were sent before) and each request,
    either a response mapping or a raised Python exception class;
  * `_send_command` and every public method of `MusicPlayerClient` as
    state-passing functions over `St` (the `connected` flag plus the
    trace of requests handed to the transport).

Exception dispatch follows the source exactly: the first `except` clause
catches `socket.timeout`, `ConnectionRefusedError` and `ConnectionError`
(Python makes `ConnectionResetError` and `BrokenPipeError` subclasses of
`ConnectionError`), re-raising as the connection-failure kind; the
second clause catches every other exception, re-raising as the
communication-failure kind wrapping the cause.
-/

namespace MusicPlayer

/-- Python values the client sends and receives: `None`, booleans,
integers, strings, lists and string-keyed dicts (the serializable shapes
used by the client and the response envelopes). -/
inductive Value where
  | vnone : Value
  | vbool : Bool → Value
  | vint : Int → Value
  | vstr : String → Value
  | vlist : List Value → Value
  | vdict : List (String × Value) → Value

/-- A Python dict with string keys, as an association list (dict
literals in the source have pairwise distinct keys). -/
abbrev Dict := List (String × Value)

/-- `d.get(k)` on a Python dict: the stored value, or `None` (here
`Option.none`) when the key is absent. -/
def lookup? : Dict → String → Option Value
  | [], _ => none
  | (k2, v) :: rest, k => if k2 == k then some v else lookup? rest k

/-- Python truthiness of a value (`if x:`): `None`, `False`, `0`, the
empty string, the empty list and the empty dict are falsy. -/
def Value.truthy : Value → Bool
  | .vnone => false
  | .vbool b => b
  | .vint n => n != 0
  | .vstr s => !s.isEmpty
  | .vlist vs => !vs.isEmpty
  | .vdict es => !es.isEmpty

/-- `v.get(k)` where `v` is an arbitrary value: defined (returning the
dict lookup) when `v` is a dict, and `Option.none` when `v` is not a
dict, in which case Python raises `AttributeError`. -/
def attrGet? (v : Value) (k : String) : Option (Option Value) :=
  match v with
  | .vdict es => some (lookup? es k)
  | _ => none

/-- `resp.get('status') == 'success'` on a response mapping: true
exactly when the `status` key holds the string `"success"` (Python
equality between a string and a non-string is `False`). -/
def isSuccessResp (d : Dict) : Bool :=
  match lookup? d "status" with
  | some (.vstr s) => s == "success"
  | _ => false

/-- `status.get('data', ...)` with an empty dict as the default: the
`data` field of a response, or an empty dict when absent. -/
def dataField (d : Dict) : Value :=
  (lookup? d "data").getD (.vdict [])

/-- The Python exception classes that can escape the `try` block of
`_send_command`, grouped by how its two `except` clauses dispatch them. -/
inductive PyExc where
  | socketTimeout : PyExc
  | connectionRefused : PyExc
  | connectionReset : PyExc
  | brokenPipe : PyExc
  | otherException : String → PyExc

/-- Whether an exception is caught by the first clause,
`except (socket.timeout, ConnectionRefusedError, ConnectionError)`.
In Python, `ConnectionRefusedError`, `ConnectionResetError` and
`BrokenPipeError` are all subclasses of `ConnectionError`, so a peer
reset or a broken pipe during send/receive lands here too. -/
def PyExc.isConnErrOrTimeout : PyExc → Bool
  | .socketTimeout => true
  | .connectionRefused => true
  | .connectionReset => true
  | .brokenPipe => true
  | .otherException _ => false

/-- The request envelope built by `_send_command`: a dict with the two
fields `command` and `params`. -/
structure Request where
  command : String
  params : List (String × Value)

/-- What one transport attempt does: either the peer answers with a
response mapping and closes (a successful round trip), or some exception
is raised inside the `try` block. -/
inductive NetOutcome where
  | ok : Dict → NetOutcome
  | raises : PyExc → NetOutcome

/-- The network oracle: the outcome of the `n`-th transport attempt
(indexed by the number of requests sent before it) for a given request.
Serialization is deterministic and injective, so the oracle may be given
the request itself rather than its pickled bytes. -/
structure Env where
  net : Nat → Request → NetOutcome

/-- Constructor parameters of `MusicPlayerClient` (`host`, `port`,
`timeout`). -/
structure Client where
  host : String
  port : Nat
  timeout : Nat

/-- Mutable client state: the `connected` flag and the trace of requests
handed to the transport so far (the trace is the observation used to
count network calls; it is not read by the code). -/
structure St where
  connected : Bool
  calls : List Request

/-- Failures an operation can raise: `ValueError` from the local volume
check (`InvalidArgument` kind), the `ConnectionError` re-raised by the
first `except` clause (carrying host/port), the `RuntimeError` re-raised
by the second clause (wrapping the cause), and an uncaught Python-level
error such as `AttributeError` on a malformed `data` field. -/
inductive Failure where
  | invalidArgument : String → Failure
  | connectionFailure : String → Nat → Failure
  | communicationFailure : PyExc → Failure
  | pyError : String → Failure

/-- Whether an `Except` result is a success. -/
def exOk {α : Type} : Except Failure α → Bool
  | .ok _ => true
  | .error _ => false

/-- `MusicPlayerClient._send_command`: build the command/params
envelope (defaulting `params` to the empty dict), attempt one round
trip, set `connected := true` on success, and on any exception set
`connected := false` and re-raise as the kind chosen by the two
`except` clauses. -/
def sendCommand (env : Env) (c : Client) (st : St) (command : String)
    (params : Option (List (String × Value))) : Except Failure Dict × St :=
  let ps := params.getD []
  let req : Request := ⟨command, ps⟩
  match env.net st.calls.length req with
  | .ok resp => (.ok resp, ⟨true, st.calls ++ [req]⟩)
  | .raises e =>
    if e.isConnErrOrTimeout then
      (.error (.connectionFailure c.host c.port), ⟨false, st.calls ++ [req]⟩)
    else
      (.error (.communicationFailure e), ⟨false, st.calls ++ [req]⟩)

/-- `play()`. -/
def play (env : Env) (c : Client) (st : St) : Except Failure Dict × St :=
  sendCommand env c st "play" none

/-- `pause()`. -/
def pause (env : Env) (c : Client) (st : St) : Except Failure Dict × St :=
  sendCommand env c st "pause" none

/-- `stop()`. -/
def stop (env : Env) (c : Client) (st : St) : Except Failure Dict × St :=
  sendCommand env c st "stop" none

/-- `next_track()`. -/
def next_track (env : Env) (c : Client) (st : St) : Except Failure Dict × St :=
  sendCommand env c st "next" none

/-- `previous_track()`. -/
def previous_track (env : Env) (c : Client) (st : St) : Except Failure Dict × St :=
  sendCommand env c st "prev" none

/-- `set_volume(volume)`: `if not 0 <= volume <= 100: raise ValueError(...)`,
then the `set_volume` command with a params dict mapping `volume` to the
argument.  The `raise` happens before `_send_command`, so on the invalid
path the state is untouched. -/
def set_volume (env : Env) (c : Client) (st : St) (volume : Int) :
    Except Failure Dict × St :=
  if 0 ≤ volume ∧ volume ≤ 100 then
    sendCommand env c st "set_volume" (some [("volume", .vint volume)])
  else
    (.error (.invalidArgument "Volume must be between 0 and 100"), st)

/-- `load_playlist(files=None)`: start from empty params and add the
`files` entry under `if files:` — a truthiness test, not an
`is not None` test. -/
def load_playlist (env : Env) (c : Client) (st : St) (files : Option Value) :
    Except Failure Dict × St :=
  let params : List (String × Value) :=
    match files with
    | some f => if f.truthy then [("files", f)] else []
    | none => []
  sendCommand env c st "load_playlist" (some params)

/-- `download(url)`: the `download` command with a params dict mapping
`url` to the argument. -/
def download (env : Env) (c : Client) (st : St) (url : String) :
    Except Failure Dict × St :=
  sendCommand env c st "download" (some [("url", .vstr url)])

/-- `get_status()`. -/
def get_status (env : Env) (c : Client) (st : St) : Except Failure Dict × St :=
  sendCommand env c st "get_status" none

/-- `get_playlist()`. -/
def get_playlist (env : Env) (c : Client) (st : St) : Except Failure Dict × St :=
  sendCommand env c st "get_playlist" none

/-- `set_position(position)`: forwarded uninterpreted. -/
def set_position (env : Env) (c : Client) (st : St) (position : Value) :
    Except Failure Dict × St :=
  sendCommand env c st "set_position" (some [("position", position)])

/-- `toggle_loop()`. -/
def toggle_loop (env : Env) (c : Client) (st : St) : Except Failure Dict × St :=
  sendCommand env c st "toggle_loop" none

/-- `convert_files(files, mode)`: the `convert_files` command with a
params dict holding `files` and `mode`; no client-side validation of
`mode`. -/
def convert_files (env : Env) (c : Client) (st : St) (files mode : Value) :
    Except Failure Dict × St :=
  sendCommand env c st "convert_files" (some [("files", files), ("mode", mode)])

/-- `play_url(url)`: download; if the download response has
`status == 'success'`, sleep one time unit, query `get_status`; if that
response has `status == 'success'` and the `is_playing` entry of its
`data` field (defaulted to an empty dict) is falsy, return `self.play()`;
in every other fall-through case return the download result.  Transport
exceptions from the inner calls propagate; `.get('is_playing')` on a
non-dict `data` raises `AttributeError`. -/
def play_url (env : Env) (c : Client) (st : St) (url : String) :
    Except Failure Dict × St :=
  match download env c st url with
  | (.error e, st1) => (.error e, st1)
  | (.ok result, st1) =>
    if isSuccessResp result then
      match get_status env c st1 with
      | (.error e, st2) => (.error e, st2)
      | (.ok status, st2) =>
        if isSuccessResp status then
          match attrGet? (dataField status) "is_playing" with
          | none => (.error (.pyError "AttributeError"), st2)
          | some ip =>
            if (ip.getD .vnone).truthy then (.ok result, st2)
            else play env c st2
        else (.ok result, st2)
    else (.ok result, st1)

/-- `add_to_queue(url)`: literally `return self.download(url)`. -/
def add_to_queue (env : Env) (c : Client) (st : St) (url : String) :
    Except Failure Dict × St :=
  download env c st url

/-- `get_current_track_info()`: `get_status`, then the `data` field when
`status == 'success'`, else `None`. -/
def get_current_track_info (env : Env) (c : Client) (st : St) :
    Except Failure (Option Value) × St :=
  match get_status env c st with
  | (.error e, st1) => (.error e, st1)
  | (.ok status, st1) =>
    if isSuccessResp status then (.ok (lookup? status "data"), st1)
    else (.ok none, st1)

/-- The polling loop of `wait_for_download`, in discrete time: the fuel
is the number of whole time units still available before the deadline.
Each iteration polls `get_status`; a `status == 'success'` response
costs one unit (`time.sleep(1)`), any other response returns `True`
immediately, and a raised transport exception propagates. -/
def waitLoop (env : Env) (c : Client) : Nat → St → Except Failure Bool × St
  | 0, st => (.ok false, st)
  | t + 1, st =>
    match get_status env c st with
    | (.ok status, st1) =>
      if isSuccessResp status then waitLoop env c t st1
      else (.ok true, st1)
    | (.error e, st1) => (.error e, st1)

/-- `wait_for_download(timeout)`: poll until `timeout` time units have
elapsed, returning `False` on deadline and `True` on the first poll
whose response status is not `"success"`. -/
def wait_for_download (env : Env) (c : Client) (st : St) (timeout : Nat) :
    Except Failure Bool × St :=
  waitLoop env c timeout st

/-- The index (0-based) of the first poll whose response is not a
success, among the first `t` polls described by `resp`, if any. -/
def firstFailureIdx (resp : Nat → Dict) : Nat → Option Nat
  | 0 => none
  | t + 1 =>
    if isSuccessResp (resp 0) then
      (firstFailureIdx (fun i => resp (i + 1)) t).map (fun k => k + 1)
    else some 0

/-- How many `get_status` polls `wait_for_download` performs when the
first `t` polls would be answered by `resp`: all `t` when every poll is
a success, and `k + 1` when poll `k` is the first non-success. -/
def pollCount (resp : Nat → Dict) (t : Nat) : Nat :=
  match firstFailureIdx resp t with
  | none => t
  | some k => k + 1

/-- A client built with the source defaults
(`host='localhost', port=65432, timeout=5`). -/
def c0 : Client := ⟨"localhost", 65432, 5⟩

/-- The state right after `__init__` (`self.connected = False`, no calls
made). -/
def st0 : St := ⟨false, []⟩

/-- A minimal successful response envelope. -/
def okResp : Dict := [("status", .vstr "success")]

/-- A peer that answers every request with the minimal success
envelope. -/
def envOk : Env := ⟨fun _ _ => .ok okResp⟩

/-- A peer that resets the connection mid-exchange on every attempt
(`ConnectionResetError`). -/
def envReset : Env := ⟨fun _ _ => .raises .connectionReset⟩

/-- A peer whose first answer (to `download`) is a success and whose
later answers (to `get_status`) report `status: 'error'` while also
stating `is_playing: False`. -/
def envStatusError : Env :=
  ⟨fun i _ =>
    if i == 0 then .ok okResp
    else .ok [("status", .vstr "error"), ("data", .vdict [("is_playing", .vbool false)])]⟩

/-- A peer for the happy `play_url` path: `download` succeeds, then
`get_status` reports success with `is_playing: False`, then `play`
succeeds. -/
def envPlayScenario : Env :=
  ⟨fun i _ =>
    if i == 1 then
      .ok [("status", .vstr "success"), ("data", .vdict [("is_playing", .vbool false)])]
    else .ok okResp⟩

/-- Modelled from the spec: the wire serialization used by
`_send_command` is `pickle.dumps` / `pickle.loads`, which is part of the
Python standard library and not of this repository.  Following the spec
(a self-describing format supporting arbitrary nested
mappings/lists/primitives, emitted as an opcode stream), the model
serializes a `Value` into a stream of tagged tokens: one token per
primitive, and container tokens carrying the element count followed by
the serialized elements (dict entries are a key token followed by the
serialized value). -/
inductive Tok where
  | tNone : Tok
  | tBool : Bool → Tok
  | tInt : Int → Tok
  | tStr : String → Tok
  | tList : Nat → Tok
  | tDict : Nat → Tok
  | tKey : String → Tok

mutual

/-- Modelled from the spec: `pickle.dumps` on a `Value` (pickle itself
is not in this repository) — emit the token stream of the value. -/
def dumps : Value → List Tok
  | .vnone => [.tNone]
  | .vbool b => [.tBool b]
  | .vint n => [.tInt n]
  | .vstr s => [.tStr s]
  | .vlist items => .tList items.length :: dumpsList items
  | .vdict entries => .tDict entries.length :: dumpsDict entries

/-- Serialize the elements of a list in order. -/
def dumpsList : List Value → List Tok
  | [] => []
  | v :: vs => dumps v ++ dumpsList vs

/-- Serialize the entries of a dict in order, each as its key token
followed by the serialized value. -/
def dumpsDict : List (String × Value) → List Tok
  | [] => []
  | (k, v) :: es => .tKey k :: (dumps v ++ dumpsDict es)

end

mutual

/-- Parse one value from the front of a token stream, returning it with
the unconsumed remainder; the fuel argument only bounds recursion
depth. -/
def parseVal : Nat → List Tok → Option (Value × List Tok)
  | 0, _ => none
  | _ + 1, [] => none
  | _ + 1, .tNone :: r => some (.vnone, r)
  | _ + 1, .tBool b :: r => some (.vbool b, r)
  | _ + 1, .tInt n :: r => some (.vint n, r)
  | _ + 1, .tStr s :: r => some (.vstr s, r)
  | f + 1, .tList n :: r =>
    (parseListN f n r).map (fun p => (.vlist p.1, p.2))
  | f + 1, .tDict n :: r =>
    (parseDictN f n r).map (fun p => (.vdict p.1, p.2))
  | _ + 1, .tKey _ :: _ => none

/-- Parse exactly `n` values from the front of a token stream. -/
def parseListN : Nat → Nat → List Tok → Option (List Value × List Tok)
  | _, 0, r => some ([], r)
  | 0, _ + 1, _ => none
  | f + 1, n + 1, toks =>
    match parseVal f toks with
    | some (v, r) =>
      match parseListN f n r with
      | some (vs, r2) => some (v :: vs, r2)
      | none => none
    | none => none

/-- Parse exactly `n` key/value entries from the front of a token
stream. -/
def parseDictN : Nat → Nat → List Tok → Option (List (String × Value) × List Tok)
  | _, 0, r => some ([], r)
  | 0, _ + 1, _ => none
  | f + 1, n + 1, .tKey k :: toks =>
    match parseVal f toks with
    | some (v, r) =>
      match parseDictN f n r with
      | some (es, r2) => some ((k, v) :: es, r2)
      | none => none
    | none => none
  | _ + 1, _ + 1, _ => none

end

mutual

/-- Recursion depth needed to parse the serialization of a value. -/
def fuelV : Value → Nat
  | .vnone => 1
  | .vbool _ => 1
  | .vint _ => 1
  | .vstr _ => 1
  | .vlist items => fuelL items + 1
  | .vdict entries => fuelD entries + 1

/-- Recursion depth needed to parse the serialized elements of a list. -/
def fuelL : List Value → Nat
  | [] => 0
  | v :: vs => fuelV v + fuelL vs + 1

/-- Recursion depth needed to parse the serialized entries of a dict. -/
def fuelD : List (String × Value) → Nat
  | [] => 0
  | (_, v) :: es => fuelV v + fuelD es + 1

end

/-- Modelled from the spec: `pickle.loads` (pickle itself is not in this
repository) — parse the full token stream back into a value, failing on
leftovers or malformed streams.  Twice the stream length bounds the
recursion depth of any stream the serializer can produce. -/
def loads (toks : List Tok) : Option Value :=
  match parseVal (2 * toks.length) toks with
  | some (v, []) => some v
  | _ => none

/-- The request envelope of `_send_command` as a serializable value: a
dict with the `command` string and the `params` dict. -/
def mkRequestValue (command : String) (params : List (String × Value)) : Value :=
  .vdict [("command", .vstr command), ("params", .vdict params)]

/-- Observational agreement of two operation runs: they return the same
result and have sent the same requests to the peer. -/
def obsEq {α : Type} (r1 r2 : Except Failure α × St) : Prop :=
  r1.1 = r2.1 ∧ r1.2.calls = r2.2.calls

/-- With enough fuel, parsing the serialization of a value (followed by
any remainder) returns exactly that value and the remainder; likewise
for serialized list elements and dict entries. -/
theorem parse_dumps (f : Nat) :
    (∀ v rest, fuelV v ≤ f → parseVal f (dumps v ++ rest) = some (v, rest)) ∧
    (∀ vs rest, fuelL vs ≤ f →
      parseListN f vs.length (dumpsList vs ++ rest) = some (vs, rest)) ∧
    (∀ es rest, fuelD es ≤ f →
      parseDictN f es.length (dumpsDict es ++ rest) = some (es, rest)) := by
  induction f with
  | zero =>
    refine ⟨?_, ?_, ?_⟩
    · intro v rest h
      exact absurd h (by cases v <;> simp [fuelV])
    · intro vs rest h
      cases vs with
      | nil => simp [dumpsList, parseListN]
      | cons v vs => simp [fuelL] at h
    · intro es rest h
      cases es with
      | nil => simp [dumpsDict, parseDictN]
      | cons e es => obtain ⟨k, v⟩ := e; simp [fuelD] at h
  | succ f ih =>
    obtain ⟨ihV, ihL, ihD⟩ := ih
    refine ⟨?_, ?_, ?_⟩
    · intro v rest h
      cases v with
      | vnone => simp [dumps, parseVal]
      | vbool b => simp [dumps, parseVal]
      | vint n => simp [dumps, parseVal]
      | vstr s => simp [dumps, parseVal]
      | vlist items =>
        have hL : fuelL items ≤ f := by simp [fuelV] at h; omega
        simp only [dumps, List.cons_append, List.append_assoc, parseVal]
        rw [ihL items rest hL]
        rfl
      | vdict entries =>
        have hD : fuelD entries ≤ f := by simp [fuelV] at h; omega
        simp only [dumps, List.cons_append, List.append_assoc, parseVal]
        rw [ihD entries rest hD]
        rfl
    · intro vs rest h
      cases vs with
      | nil => simp [dumpsList, parseListN]
      | cons v vs =>
        have h1 : fuelV v ≤ f := by simp [fuelL] at h; omega
        have h2 : fuelL vs ≤ f := by simp [fuelL] at h; omega
        simp only [dumpsList, List.length_cons, List.append_assoc, parseListN]
        simp [ihV v (dumpsList vs ++ rest) h1, ihL vs rest h2]
    · intro es rest h
      cases es with
      | nil => simp [dumpsDict, parseDictN]
      | cons e es =>
        obtain ⟨k, v⟩ := e
        have h1 : fuelV v ≤ f := by simp [fuelD] at h; omega
        have h2 : fuelD es ≤ f := by simp [fuelD] at h; omega
        simp only [dumpsDict, List.length_cons, List.cons_append,
          List.append_assoc, parseDictN]
        simp [ihV v (dumpsDict es ++ rest) h1, ihD es rest h2]

/-- The fuel needed for a serialization never exceeds twice its length
(stated additively to stay in `Nat`). -/
theorem fuel_bound (n : Nat) :
    (∀ v, fuelV v ≤ n → fuelV v + 1 ≤ 2 * (dumps v).length) ∧
    (∀ vs, fuelL vs ≤ n → fuelL vs ≤ 2 * (dumpsList vs).length) ∧
    (∀ es, fuelD es ≤ n → fuelD es ≤ 2 * (dumpsDict es).length) := by
  induction n with
  | zero =>
    refine ⟨?_, ?_, ?_⟩
    · intro v h
      exact absurd h (by cases v <;> simp [fuelV])
    · intro vs h
      cases vs with
      | nil => simp [fuelL]
      | cons v vs => simp [fuelL] at h
    · intro es h
      cases es with
      | nil => simp [fuelD]
      | cons e es => obtain ⟨k, v⟩ := e; simp [fuelD] at h
  | succ n ih =>
    obtain ⟨ihV, ihL, ihD⟩ := ih
    refine ⟨?_, ?_, ?_⟩
    · intro v h
      cases v with
      | vnone => simp [fuelV, dumps]
      | vbool b => simp [fuelV, dumps]
      | vint m => simp [fuelV, dumps]
      | vstr s => simp [fuelV, dumps]
      | vlist items =>
        have hL : fuelL items ≤ n := by simp [fuelV] at h; omega
        have := ihL items hL
        simp only [fuelV, dumps, List.length_cons]
        omega
      | vdict entries =>
        have hD : fuelD entries ≤ n := by simp [fuelV] at h; omega
        have := ihD entries hD
        simp only [fuelV, dumps, List.length_cons]
        omega
    · intro vs h
      cases vs with
      | nil => simp [fuelL]
      | cons v vs =>
        have h1 : fuelV v ≤ n := by simp [fuelL] at h; omega
        have h2 : fuelL vs ≤ n := by simp [fuelL] at h; omega
        have b1 := ihV v h1
        have b2 := ihL vs h2
        simp only [fuelL, dumpsList, List.length_append]
        omega
    · intro es h
      cases es with
      | nil => simp [fuelD]
      | cons e es =>
        obtain ⟨k, v⟩ := e
        have h1 : fuelV v ≤ n := by simp [fuelD] at h; omega
        have h2 : fuelD es ≤ n := by simp [fuelD] at h; omega
        have b1 := ihV v h1
        have b2 := ihD es h2
        simp only [fuelD, dumpsDict, List.length_cons, List.length_append]
        omega

/-- Deserializing a serialized value gives the value back. -/
theorem loads_dumps (v : Value) : loads (dumps v) = some v := by
  have hb := (fuel_bound (fuelV v)).1 v le_rfl
  have hp := (parse_dumps (2 * (dumps v).length)).1 v [] (by omega)
  rw [List.append_nil] at hp
  rw [loads, hp]

/-- Whatever the outcome, one `_send_command` appends exactly its
request envelope to the trace of requests handed to the transport. -/
theorem sendCommand_calls (env : Env) (c : Client) (st : St) (cmd : String)
    (ps : Option (List (String × Value))) :
    (sendCommand env c st cmd ps).2.calls = st.calls ++ [⟨cmd, ps.getD []⟩] := by
  simp only [sendCommand]
  cases env.net st.calls.length ⟨cmd, ps.getD []⟩ with
  | ok r => rfl
  | raises e => cases he : e.isConnErrOrTimeout <;> simp [he]

/-- After `_send_command` the flag records exactly whether the round
trip succeeded. -/
theorem sendCommand_connected (env : Env) (c : Client) (st : St) (cmd : String)
    (ps : Option (List (String × Value))) :
    (sendCommand env c st cmd ps).2.connected =
      exOk (sendCommand env c st cmd ps).1 := by
  simp only [sendCommand]
  cases env.net st.calls.length ⟨cmd, ps.getD []⟩ with
  | ok r => rfl
  | raises e => cases he : e.isConnErrOrTimeout <;> simp [he, exOk]

/-- C1 counterexample: a peer reset mid-exchange (`ConnectionResetError`,
a subclass of `ConnectionError`) is caught by the first `except` clause
of `_send_command` and surfaces as the `ConnectionFailure` kind carrying
host/port — not, as the claim states for failures during the exchange,
as a `CommunicationFailure` wrapping the cause. -/
theorem c1_counterexample :
    (sendCommand envReset c0 st0 "play" none).1 =
      .error (.connectionFailure "localhost" 65432) ∧
    (sendCommand envReset c0 st0 "play" none).1 ≠
      .error (.communicationFailure .connectionReset) := by
  refine ⟨rfl, ?_⟩
  simp [sendCommand, envReset, c0, st0, PyExc.isConnErrOrTimeout]

/-- C1 (amended): when the transport attempt raises, the call fails with
`ConnectionFailure` carrying host/port if the exception is a timeout or
any connection-class error (refused, reset, broken pipe), and with
`CommunicationFailure` wrapping the cause for every other exception
raised during send/receive/deserialize. -/
theorem c1_failure_classification (env : Env) (c : Client) (st : St)
    (cmd : String) (ps : Option (List (String × Value))) (e : PyExc)
    (h : env.net st.calls.length ⟨cmd, ps.getD []⟩ = .raises e) :
    (sendCommand env c st cmd ps).1 =
      .error (if e.isConnErrOrTimeout then .connectionFailure c.host c.port
              else .communicationFailure e) := by
  simp only [sendCommand, h]
  cases he : e.isConnErrOrTimeout <;> simp [he]

/-- C1 witness: the classification theorem applied to a concrete peer
that resets every connection. -/
theorem c1_witness :
    (sendCommand envReset c0 st0 "stop" none).1 =
      .error (if PyExc.isConnErrOrTimeout .connectionReset then
                .connectionFailure c0.host c0.port
              else .communicationFailure .connectionReset) :=
  c1_failure_classification envReset c0 st0 "stop" none .connectionReset rfl

/-- C2 counterexample: from a state whose flag is `true`, the
out-of-range `set_volume` call fails with `InvalidArgument` before any
network call and leaves the flag `true` — the claim requires the flag to
be set `false` on any failure, including local ones. -/
theorem c2_counterexample :
    (set_volume envOk c0 ⟨true, []⟩ 101).1 =
      .error (.invalidArgument "Volume must be between 0 and 100") ∧
    (set_volume envOk c0 ⟨true, []⟩ 101).2.connected = true := by
  constructor
  · simp [set_volume]
  · simp [set_volume]

/-- C2 (amended): after any transport call the flag equals whether the
round trip succeeded; an operation that fails locally before any network
call (out-of-range `set_volume`) raises `InvalidArgument` and leaves the
state — in particular the flag — unchanged. -/
theorem c2_flag_semantics (env : Env) (c : Client) (st : St) (cmd : String)
    (ps : Option (List (String × Value))) (v : Int) :
    (sendCommand env c st cmd ps).2.connected =
      exOk (sendCommand env c st cmd ps).1 ∧
    (¬(0 ≤ v ∧ v ≤ 100) →
      set_volume env c st v =
        (.error (.invalidArgument "Volume must be between 0 and 100"), st)) := by
  refine ⟨sendCommand_connected env c st cmd ps, fun h => ?_⟩
  simp [set_volume, h]

/-- C2 witness: the flag semantics at a concrete always-success peer and
the concrete out-of-range volume 101. -/
theorem c2_witness :
    (sendCommand envOk c0 st0 "play" none).2.connected =
      exOk (sendCommand envOk c0 st0 "play" none).1 ∧
    set_volume envOk c0 st0 101 =
      (.error (.invalidArgument "Volume must be between 0 and 100"), st0) := by
  have h := c2_flag_semantics envOk c0 st0 "play" none 101
  exact ⟨h.1, h.2 (by decide)⟩

/-- C3: for volume in [0,100], `set_volume` issues exactly one network
call, whose params map `volume` to that value; outside the range it
issues no network call and raises `InvalidArgument`. -/
theorem c3_set_volume (env : Env) (c : Client) (st : St) (v : Int) :
    if 0 ≤ v ∧ v ≤ 100 then
      (set_volume env c st v).2.calls =
        st.calls ++ [⟨"set_volume", [("volume", .vint v)]⟩]
    else
      (set_volume env c st v).2.calls = st.calls ∧
      (set_volume env c st v).1 =
        .error (.invalidArgument "Volume must be between 0 and 100") := by
  by_cases h : 0 ≤ v ∧ v ≤ 100
  · rw [if_pos h]
    simp only [set_volume, if_pos h]
    exact sendCommand_calls env c st "set_volume" (some [("volume", .vint v)])
  · rw [if_neg h]
    simp [set_volume, h]

/-- C6: `get_current_track_info` returns the `data` field of the
`get_status` response when its status is `"success"`, and `None` for any
other status. -/
theorem c6_get_current_track_info (env : Env) (c : Client) (st : St)
    (s : Dict) (st1 : St)
    (h : get_status env c st = (.ok s, st1)) :
    get_current_track_info env c st =
      (.ok (if isSuccessResp s then lookup? s "data" else none), st1) := by
  simp only [get_current_track_info, h]
  cases hs : isSuccessResp s <;> simp [hs]

/-- C6 witness: the theorem applied to the concrete always-success
peer. -/
theorem c6_witness :
    get_current_track_info envOk c0 st0 =
      (.ok (if isSuccessResp okResp then lookup? okResp "data" else none),
        ⟨true, [⟨"get_status", []⟩]⟩) :=
  c6_get_current_track_info envOk c0 st0 okResp ⟨true, [⟨"get_status", []⟩]⟩ rfl

/-- C7: serializing the request envelope and deserializing the result
reconstructs the envelope exactly, for every command and params
mapping. -/
theorem c7_roundtrip (command : String) (params : List (String × Value)) :
    loads (dumps (mkRequestValue command params)) =
      some (mkRequestValue command params) :=
  loads_dumps (mkRequestValue command params)

/-- C8 counterexample: an explicitly given empty list is falsy, so
`load_playlist([])` sends empty params — the claim requires the `files`
entry to be present for every given `files` argument, including the
empty list. -/
theorem c8_counterexample :
    (load_playlist envOk c0 st0 (some (.vlist []))).2.calls =
      [⟨"load_playlist", []⟩] ∧
    (load_playlist envOk c0 st0 (some (.vlist []))).2.calls ≠
      [⟨"load_playlist", [("files", .vlist [])]⟩] := by
  refine ⟨rfl, ?_⟩
  simp [load_playlist, sendCommand, envOk, c0, st0, Value.truthy]

/-- C8 (amended): `load_playlist` sends params containing `files`
exactly when the argument is given and truthy (a non-empty list); when
the argument is absent, `None`, or falsy (such as the empty list), it
sends empty params. -/
theorem c8_load_playlist (env : Env) (c : Client) (st : St)
    (files : Option Value) :
    (load_playlist env c st files).2.calls =
      st.calls ++ [⟨"load_playlist",
        if (files.getD .vnone).truthy then [("files", files.getD .vnone)]
        else []⟩] := by
  cases files with
  | none => simp [load_playlist, Value.truthy, sendCommand_calls]
  | some f =>
    cases hf : f.truthy with
    | true => simp [load_playlist, hf, sendCommand_calls]
    | false => simp [load_playlist, hf, sendCommand_calls, Value.truthy]

/-- C10: when the download response reports success but the subsequent
`get_status` response does not, `play_url` returns the download result
and issues no `play` call (its final state is the post-`get_status`
state). -/
theorem c10_play_url_status_error (env : Env) (c : Client) (st : St)
    (url : String) (d s : Dict) (st1 st2 : St)
    (hd : download env c st url = (.ok d, st1))
    (hds : isSuccessResp d = true)
    (hs : get_status env c st1 = (.ok s, st2))
    (hss : isSuccessResp s = false) :
    play_url env c st url = (.ok d, st2) := by
  simp [play_url, hd, hds, hs, hss]

/-- C10 witness: the theorem applied to the concrete peer whose
`get_status` answers report an error status. -/
theorem c10_witness :
    play_url envStatusError c0 st0 "v" =
      (.ok okResp,
        ⟨true, [⟨"download", [("url", .vstr "v")]⟩, ⟨"get_status", []⟩]⟩) :=
  c10_play_url_status_error envStatusError c0 st0 "v" okResp
    [("status", .vstr "error"), ("data", .vdict [("is_playing", .vbool false)])]
    ⟨true, [⟨"download", [("url", .vstr "v")]⟩]⟩
    ⟨true, [⟨"download", [("url", .vstr "v")]⟩, ⟨"get_status", []⟩]⟩
    rfl rfl rfl rfl

/-- C4 counterexample: the download succeeds and the status response
itself says `is_playing: False`, yet because that response's status is
`"error"` the code returns the download result and never issues `play` —
the trace holds only the `download` and `get_status` requests.  This
contradicts the claim that `play` is issued (and its result returned)
whenever the download did not fail and the player is not already
playing. -/
theorem c4_counterexample :
    play_url envStatusError c0 st0 "u" =
      (.ok okResp,
        ⟨true, [⟨"download", [("url", .vstr "u")]⟩, ⟨"get_status", []⟩]⟩) := rfl

/-- C4 (amended): given the download and status responses, `play_url`
returns the download result if the download status is not success, if
the status response's status is not success, or if its `is_playing`
entry is truthy; when both statuses are success and `is_playing` is
falsy it issues `play` and returns that call's result. -/
theorem c4_play_url (env : Env) (c : Client) (st : St) (url : String)
    (d s : Dict) (st1 st2 : St) (ip : Option Value)
    (hd : download env c st url = (.ok d, st1))
    (hs : get_status env c st1 = (.ok s, st2))
    (hip : attrGet? (dataField s) "is_playing" = some ip) :
    play_url env c st url =
      if isSuccessResp d then
        if isSuccessResp s then
          if (ip.getD .vnone).truthy then (.ok d, st2) else play env c st2
        else (.ok d, st2)
      else (.ok d, st1) := by
  simp only [play_url, hd]
  cases hsd : isSuccessResp d with
  | false => simp [hsd]
  | true =>
    simp only [hsd, if_true, hs]
    cases hss : isSuccessResp s with
    | false => simp [hss]
    | true => simp [hss, hip]

/-- C4 witness: the amended theorem at the concrete happy-path peer
(download succeeds, status reports success with `is_playing: False`),
where it shows the `play` call is issued and its result returned. -/
theorem c4_witness :
    play_url envPlayScenario c0 st0 "u" =
      (if isSuccessResp okResp then
        if isSuccessResp
            [("status", .vstr "success"),
             ("data", .vdict [("is_playing", .vbool false)])] then
          if ((some (Value.vbool false)).getD .vnone).truthy then
            (.ok okResp,
              ⟨true, [⟨"download", [("url", .vstr "u")]⟩, ⟨"get_status", []⟩]⟩)
          else
            play envPlayScenario c0
              ⟨true, [⟨"download", [("url", .vstr "u")]⟩, ⟨"get_status", []⟩]⟩
        else
          (.ok okResp,
            ⟨true, [⟨"download", [("url", .vstr "u")]⟩, ⟨"get_status", []⟩]⟩)
      else (.ok okResp, ⟨true, [⟨"download", [("url", .vstr "u")]⟩]⟩)) :=
  c4_play_url envPlayScenario c0 st0 "u" okResp
    [("status", .vstr "success"), ("data", .vdict [("is_playing", .vbool false)])]
    ⟨true, [⟨"download", [("url", .vstr "u")]⟩]⟩
    ⟨true, [⟨"download", [("url", .vstr "u")]⟩, ⟨"get_status", []⟩]⟩
    (some (.vbool false)) rfl rfl rfl

/-- C5: when the oracle answers the polls of `get_status` with the given
responses, `wait_for_download` returns `false` if every poll within the
deadline reports success, `true` on the first poll that reports any
other status, and issues exactly one `get_status` request per poll
(`pollCount` many, at most `timeout`). -/
theorem c5_wait_for_download (env : Env) (c : Client) (st : St) (t : Nat)
    (resp : Nat → Dict)
    (h : ∀ i, i < t →
      env.net (st.calls.length + i) ⟨"get_status", []⟩ = .ok (resp i)) :
    (wait_for_download env c st t).1 = .ok (firstFailureIdx resp t).isSome ∧
    (wait_for_download env c st t).2.calls =
      st.calls ++ List.replicate (pollCount resp t) ⟨"get_status", []⟩ := by
  induction t generalizing st resp with
  | zero => simp [wait_for_download, waitLoop, firstFailureIdx, pollCount]
  | succ t ih =>
    have h0 : env.net st.calls.length ⟨"get_status", []⟩ = .ok (resp 0) := by
      have := h 0 (Nat.succ_pos t)
      simpa using this
    have hget : get_status env c st =
        (.ok (resp 0), ⟨true, st.calls ++ [⟨"get_status", []⟩]⟩) := by
      simp [get_status, sendCommand, h0]
    have hunfold : wait_for_download env c st (t + 1) =
        (if isSuccessResp (resp 0) then
          wait_for_download env c ⟨true, st.calls ++ [⟨"get_status", []⟩]⟩ t
        else (.ok true, ⟨true, st.calls ++ [⟨"get_status", []⟩]⟩)) := by
      rw [wait_for_download, waitLoop, hget]
      rfl
    cases hs : isSuccessResp (resp 0) with
    | false =>
      rw [hunfold, hs]
      simp only [if_false, Bool.false_eq_true]
      constructor
      · simp [firstFailureIdx, hs]
      · simp [pollCount, firstFailureIdx, hs]
    | true =>
      have hnext : ∀ i, i < t →
          env.net ((st.calls ++ [(⟨"get_status", []⟩ : Request)]).length + i)
            ⟨"get_status", []⟩ = .ok (resp (i + 1)) := by
        intro i hi
        have hlen : (st.calls ++ [(⟨"get_status", []⟩ : Request)]).length + i =
            st.calls.length + (i + 1) := by
          simp [List.length_append]
          omega
        rw [hlen]
        exact h (i + 1) (by omega)
      have ih2 := ih ⟨true, st.calls ++ [⟨"get_status", []⟩]⟩
        (fun i => resp (i + 1)) hnext
      rw [hunfold, hs]
      simp only [if_true]
      constructor
      · rw [ih2.1]
        simp [firstFailureIdx, hs, Option.isSome_map]
      · rw [ih2.2]
        simp only [pollCount, firstFailureIdx, hs, if_true]
        cases hff : firstFailureIdx (fun i => resp (i + 1)) t with
        | none => simp [List.replicate_succ]
        | some k => simp [List.replicate_succ]

/-- C5 witness: against the always-success peer with a three-unit
deadline, `wait_for_download` returns `false` having polled exactly
three times. -/
theorem c5_witness :
    (wait_for_download envOk c0 st0 3).1 =
      .ok (firstFailureIdx (fun _ => okResp) 3).isSome ∧
    (wait_for_download envOk c0 st0 3).2.calls =
      st0.calls ++ List.replicate (pollCount (fun _ => okResp) 3)
        ⟨"get_status", []⟩ :=
  c5_wait_for_download envOk c0 st0 3 (fun _ => okResp) (fun _ _ => rfl)

/-- C9: two runs of any operation that differ only in the prior value of
the connection-state flag send the same requests to the peer and return
the same result — the flag is purely observational and gates no
behavior. -/
theorem c9_flag_noninterference (env : Env) (c : Client) (b1 b2 : Bool)
    (cs : List Request) (cmd : String) (ps : Option (List (String × Value)))
    (v : Int) (files : Option Value) (url : String) (pos cfs cmode : Value)
    (t : Nat) :
    obsEq (sendCommand env c ⟨b1, cs⟩ cmd ps) (sendCommand env c ⟨b2, cs⟩ cmd ps) ∧
    obsEq (play env c ⟨b1, cs⟩) (play env c ⟨b2, cs⟩) ∧
    obsEq (pause env c ⟨b1, cs⟩) (pause env c ⟨b2, cs⟩) ∧
    obsEq (stop env c ⟨b1, cs⟩) (stop env c ⟨b2, cs⟩) ∧
    obsEq (next_track env c ⟨b1, cs⟩) (next_track env c ⟨b2, cs⟩) ∧
    obsEq (previous_track env c ⟨b1, cs⟩) (previous_track env c ⟨b2, cs⟩) ∧
    obsEq (set_volume env c ⟨b1, cs⟩ v) (set_volume env c ⟨b2, cs⟩ v) ∧
    obsEq (load_playlist env c ⟨b1, cs⟩ files) (load_playlist env c ⟨b2, cs⟩ files) ∧
    obsEq (download env c ⟨b1, cs⟩ url) (download env c ⟨b2, cs⟩ url) ∧
    obsEq (get_status env c ⟨b1, cs⟩) (get_status env c ⟨b2, cs⟩) ∧
    obsEq (get_playlist env c ⟨b1, cs⟩) (get_playlist env c ⟨b2, cs⟩) ∧
    obsEq (set_position env c ⟨b1, cs⟩ pos) (set_position env c ⟨b2, cs⟩ pos) ∧
    obsEq (toggle_loop env c ⟨b1, cs⟩) (toggle_loop env c ⟨b2, cs⟩) ∧
    obsEq (convert_files env c ⟨b1, cs⟩ cfs cmode)
      (convert_files env c ⟨b2, cs⟩ cfs cmode) ∧
    obsEq (play_url env c ⟨b1, cs⟩ url) (play_url env c ⟨b2, cs⟩ url) ∧
    obsEq (add_to_queue env c ⟨b1, cs⟩ url) (add_to_queue env c ⟨b2, cs⟩ url) ∧
    obsEq (get_current_track_info env c ⟨b1, cs⟩)
      (get_current_track_info env c ⟨b2, cs⟩) ∧
    obsEq (wait_for_download env c ⟨b1, cs⟩ t) (wait_for_download env c ⟨b2, cs⟩ t) := by
  have hsv : obsEq (set_volume env c ⟨b1, cs⟩ v) (set_volume env c ⟨b2, cs⟩ v) := by
    by_cases h : 0 ≤ v ∧ v ≤ 100
    · simp only [set_volume, if_pos h]
      exact ⟨rfl, rfl⟩
    · simp only [set_volume, if_neg h]
      exact ⟨rfl, rfl⟩
  have hw : obsEq (wait_for_download env c ⟨b1, cs⟩ t)
      (wait_for_download env c ⟨b2, cs⟩ t) := by
    cases t with
    | zero => exact ⟨rfl, rfl⟩
    | succ t => exact ⟨rfl, rfl⟩
  exact ⟨⟨rfl, rfl⟩, ⟨rfl, rfl⟩, ⟨rfl, rfl⟩, ⟨rfl, rfl⟩, ⟨rfl, rfl⟩, ⟨rfl, rfl⟩,
    hsv, ⟨rfl, rfl⟩, ⟨rfl, rfl⟩, ⟨rfl, rfl⟩, ⟨rfl, rfl⟩, ⟨rfl, rfl⟩, ⟨rfl, rfl⟩,
    ⟨rfl, rfl⟩, ⟨rfl, rfl⟩, ⟨rfl, rfl⟩, ⟨rfl, rfl⟩, hw⟩

end MusicPlayer
